import Mathlib

/-!
# Verification of the wesense-ingester-core data plane

Shallow embedding of the signed-envelope publish/subscribe/query data plane:

* `signing/trust.py` — `TrustStore` (version-keyed public keys with
  active/revoked status);
* `signing/signer.py` — `ReadingSigner.verify`;
* `signing/keys.py` — `IngesterKeyManager.load_or_generate`;
* `zenoh/subscriber.py` — `ZenohSubscriber._on_sample`;
* `zenoh/publisher.py` — `ZenohPublisher.publish_reading`;
* `zenoh/config.py` — `ZenohConfig.build_key_expr`;
* `zenoh/queryable.py` — `ZenohQueryable._handle_query`.

Conventions of the embedding:

* Python `bytes` are `List Nat` (each element a byte value).
* Python `dict`s are association lists `List (String × α)`; lookup and
  update act on the first occurrence of a key, and a well-formed dict has
  pairwise-distinct keys (stated as a `Nodup` hypothesis where it matters).
* Fallible Python calls are modelled in `Except PyErr`; an uncaught
  exception is an `Except.error`.
* External library primitives that the repository only calls (protobuf
  `ParseFromString`, `json.loads`, the Ed25519 signature check, PEM
  parsing) are *parameters* of the embedded functions, so every theorem
  holds for any behaviour of those primitives.  The base64 encode/decode
  pair at the trust-store persistence boundary is elided (entries store
  the raw key bytes): `base64.b64decode ∘ base64.b64encode = id` on bytes,
  and disk persistence itself is not modelled.
-/

set_option autoImplicit false

namespace WeSense

/-- Python exceptions relevant to the modelled code paths. -/
inductive PyErr where
  | invalidSignature
  | valueError (msg : String)
  | keyLoadError (msg : String)
  | other (msg : String)
  deriving Repr, DecidableEq

instance {ε α : Type} [DecidableEq ε] [DecidableEq α] : DecidableEq (Except ε α) :=
  fun a b =>
    match a, b with
    | .ok x, .ok y => if h : x = y then isTrue (by rw [h]) else isFalse (by simp [h])
    | .error x, .error y => if h : x = y then isTrue (by rw [h]) else isFalse (by simp [h])
    | .ok _, .error _ => isFalse (by simp)
    | .error _, .ok _ => isFalse (by simp)

/-- ASCII lowercasing of one character, the behaviour of Python's
`str.lower()` on the ASCII key-expression inputs of this codebase. -/
def asciiLower (c : Char) : Char :=
  if 65 ≤ c.toNat ∧ c.toNat ≤ 90 then Char.ofNat (c.toNat + 32) else c

/-- Python `str.lower()` (ASCII case mapping). -/
def pyLower (s : String) : String := String.mk (s.data.map asciiLower)

/-- First-occurrence lookup in an association list (Python `dict.get`). -/
def lookupA {α : Type} : List (String × α) → String → Option α
  | [], _ => none
  | (k', v) :: rest, k => if k' = k then some v else lookupA rest k

/-- Update/insert in an association list (Python `dict[k] = v`): replaces the
first binding of `k`, or appends a fresh binding. -/
def setA {α : Type} : List (String × α) → String → α → List (String × α)
  | [], k, v => [(k, v)]
  | (k', v') :: rest, k, v =>
      if k' = k then (k', v) :: rest else (k', v') :: setA rest k v

/-! ## Trust store (`signing/trust.py`) -/

/-- One trust-store record, the value stored at `self._keys[ingester_id][str(key_version)]`.
`public_key` holds the raw key bytes (the JSON file stores them base64-encoded;
the codec is elided, see the module header). -/
structure TrustEntry where
  public_key : List Nat
  status : String
  added : String
  metadata : List (String × String)
  revoked_at : Option String := none
  revoke_reason : Option String := none
  deriving Repr, DecidableEq

/-- The in-memory state `TrustStore._keys`: ingester id → version string → entry. -/
abbrev TrustKeys := List (String × List (String × TrustEntry))

/-- `TrustStore.is_trusted`: some version of this ingester has status `"active"`. -/
def is_trusted (keys : TrustKeys) (ingester_id : String) : Bool :=
  ((lookupA keys ingester_id).getD []).any (fun p => p.2.status == "active")

/-- `Ed25519PublicKey.from_public_bytes`: raises `ValueError` unless given
exactly 32 bytes. -/
def from_public_bytes (b : List Nat) : Except PyErr (List Nat) :=
  if b.length = 32 then .ok b
  else .error (.valueError "An Ed25519 public key is 32 bytes long")

/-- `TrustStore.get_public_key`: returns the key only when the entry for
`(ingester_id, str(key_version))` exists with status `"active"`; decoding a
malformed stored key raises (propagated as `.error`). -/
def get_public_key (keys : TrustKeys) (ingester_id : String) (key_version : Nat) :
    Except PyErr (Option (List Nat)) :=
  match lookupA ((lookupA keys ingester_id).getD []) (toString key_version) with
  | none => .ok none
  | some entry =>
      if entry.status = "active" then
        (from_public_bytes entry.public_key).map some
      else
        .ok none

/-- `TrustStore.add_trusted`: upsert an active entry at
`(ingester_id, str(key_version))`.  `now` stands for
`datetime.now(timezone.utc).isoformat()`; disk persistence is elided. -/
def add_trusted (keys : TrustKeys) (ingester_id : String)
    (public_key_bytes : List Nat) (key_version : Nat)
    (metadata : List (String × String)) (now : String) : TrustKeys :=
  let versions := (lookupA keys ingester_id).getD []
  setA keys ingester_id
    (setA versions (toString key_version)
      { public_key := public_key_bytes
        status := "active"
        added := now
        metadata := metadata })

/-- `TrustStore.revoke`: no-op when the `(ingester_id, str(key_version))`
entry does not exist; otherwise flips its status to `"revoked"` and records
the reason and timestamp. -/
def revoke (keys : TrustKeys) (ingester_id : String) (key_version : Nat)
    (reason : String) (now : String) : TrustKeys :=
  match lookupA keys ingester_id with
  | none => keys
  | some versions =>
    match lookupA versions (toString key_version) with
    | none => keys
    | some entry =>
        setA keys ingester_id
          (setA versions (toString key_version)
            { entry with
                status := "revoked"
                revoked_at := some now
                revoke_reason := some reason })

/-! ## Signer / verifier (`signing/signer.py`) -/

/-- The `SignedReading` protobuf envelope. -/
structure SignedReading where
  payload : List Nat
  signature : List Nat
  ingester_id : String
  key_version : Nat
  deriving Repr, DecidableEq

/-- The Ed25519 verification primitive is a parameter: a predicate deciding
whether `sig` is a valid signature on `payload` under `pk`. -/
abbrev CryptoVerify := List Nat → List Nat → List Nat → Bool

/-- `cryptography`'s `Ed25519PublicKey.verify(sig, payload)`: returns `None`
on success and raises `InvalidSignature` on any routine verification
failure. -/
def pkVerify (cv : CryptoVerify) (pk sig payload : List Nat) : Except PyErr Unit :=
  if cv pk sig payload then .ok () else .error .invalidSignature

namespace ReadingSigner

/-- `ReadingSigner.verify`: calls the library check and converts
`InvalidSignature` to `False`; any other exception would propagate. -/
def verify (cv : CryptoVerify) (sr : SignedReading) (pk : List Nat) :
    Except PyErr Bool :=
  match pkVerify cv pk sr.signature sr.payload with
  | .ok () => .ok true
  | .error .invalidSignature => .ok false
  | .error e => .error e

end ReadingSigner

/-! ## Subscriber (`zenoh/subscriber.py`) -/

/-- The subscriber's stats counters (`_received`, `_verified`, `_rejected`,
`_unsigned`). -/
structure SubStats where
  received : Nat
  verified : Nat
  rejected : Nat
  unsigned : Nat
  deriving Repr, DecidableEq

/-- The all-zero counter state a fresh `ZenohSubscriber` starts with. -/
def SubStats.zero : SubStats := ⟨0, 0, 0, 0⟩

/-- The tail of `_on_sample`: try `json.loads(data)` on the raw bytes; on
success count `unsigned` and deliver `(reading_dict, None)`; on failure drop
silently.  `J` is the type of parsed JSON readings; the second component of
the result lists the invocations of the registered callback. -/
def fallbackJson {J : Type} (jsonParse : List Nat → Option J)
    (st : SubStats) (data : List Nat) :
    SubStats × List (J × Option SignedReading) :=
  match jsonParse data with
  | some r => ({ st with unsigned := st.unsigned + 1 }, [(r, none)])
  | none => (st, [])

/-- `ZenohSubscriber._on_sample`, as a pure transition on the counters that
also returns the list of `(reading_dict, signed_reading?)` callback
invocations.  Parameters: `deserialize` models `ReadingSigner.deserialize`
(protobuf parse, `none` = `DecodeError`), `jsonParse` models `json.loads`,
`cv` the Ed25519 check, `store` the optional trust store's key map.
A `get_public_key` that raises is caught by the enclosing
`except Exception: pass` and falls through to the raw-JSON fallback, exactly
as in the source. -/
def onSample {J : Type} (deserialize : List Nat → Option SignedReading)
    (jsonParse : List Nat → Option J) (cv : CryptoVerify)
    (store : Option TrustKeys) (st0 : SubStats) (data : List Nat) :
    SubStats × List (J × Option SignedReading) :=
  let st := { st0 with received := st0.received + 1 }
  match deserialize data with
  | none => fallbackJson jsonParse st data
  | some sr =>
    if sr.signature ≠ [] ∧ sr.ingester_id ≠ "" then
      match store with
      | some keys =>
        if ¬ is_trusted keys sr.ingester_id then
          ({ st with rejected := st.rejected + 1 }, [])
        else
          match get_public_key keys sr.ingester_id sr.key_version with
          | .error _ => fallbackJson jsonParse st data
          | .ok none => ({ st with rejected := st.rejected + 1 }, [])
          | .ok (some pk) =>
            if ¬ cv pk sr.signature sr.payload then
              ({ st with rejected := st.rejected + 1 }, [])
            else
              let st1 := { st with verified := st.verified + 1 }
              match jsonParse sr.payload with
              | some r => (st1, [(r, some sr)])
              | none => fallbackJson jsonParse st1 data
      | none =>
        let st1 := { st with verified := st.verified + 1 }
        match jsonParse sr.payload with
        | some r => (st1, [(r, some sr)])
        | none => fallbackJson jsonParse st1 data
    else fallbackJson jsonParse st data

/-! ## Key-expression construction (`zenoh/config.py`, `zenoh/publisher.py`) -/

/-- Python truthiness-based defaulting `x or default` for an optional string:
both a missing value and the empty string fall back to the default. -/
def pyOr (x : Option String) (default : String) : String :=
  match x with
  | none => default
  | some s => if s = "" then default else s

/-- `ZenohConfig.build_key_expr`: `{prefix}/{country}/{subdivision}/{device_id}`
with `None` (and, via Python truthiness, empty) fields defaulting to
`"unknown"`, country and subdivision lowercased. -/
def build_key_expr ( key_prefix : String) (country subdivision device_id : Option String) :
    String :=
  -- `"/".join([...])` of the four components
  key_prefix ++ "/" ++ pyLower (pyOr country "unknown") ++ "/" ++
    pyLower (pyOr subdivision "unknown") ++ "/" ++ pyOr device_id "unknown"

/-- A reading is a JSON object; for key construction only the string-valued
attributes `geo_country`, `geo_subdivision`, `device_id` matter. -/
abbrev Reading := List (String × String)

/-- The key-expression computation inside `ZenohPublisher.publish_reading`:
defaults and lowercases country/subdivision, defaults `device_id`, then calls
`build_key_expr`. -/
def readingKeyExpr ( key_prefix : String) (reading : Reading) : String :=
  let country := pyLower (pyOr (lookupA reading "geo_country") "unknown")
  let subdivision := pyLower (pyOr (lookupA reading "geo_subdivision") "unknown")
  let device_id := pyOr (lookupA reading "device_id") "unknown"
  build_key_expr key_prefix (some country) (some subdivision) (some device_id)

/-! ## Publisher send path (`zenoh/publisher.py`) -/

/-- `ZenohPublisher.publish_reading`, with its fallible collaborators as
`Except`-valued parameters: `serialize` models
`json.dumps(reading, sort_keys=True, default=str).encode()`, `signer` models
`self._signer.sign(payload).SerializeToString()` when a signer is attached,
`getHandle` models `_get_or_create_publisher`, and `send` models `pub.put`.
The overall `Except` is the exception surface seen by the caller; the
`try/except` in the source converts every failure of the four steps into
`.ok false`. -/
def publish_reading (connected : Bool) (sessionOpen : Bool)
    (serialize : Reading → Except PyErr (List Nat))
    (signer : Option (List Nat → Except PyErr (List Nat)))
    (getHandle : String → Except PyErr Unit)
    (send : String → List Nat → Except PyErr Unit)
    ( key_prefix : String) (reading : Reading) : Except PyErr Bool :=
  if ¬ (connected ∧ sessionOpen) then .ok false
  else
    let key_expr := readingKeyExpr key_prefix reading
    let attempt : Except PyErr Bool :=
      match serialize reading with
      | .error e => .error e
      | .ok payload_bytes =>
        match (match signer with
               | some sign => sign payload_bytes
               | none => .ok payload_bytes) with
        | .error e => .error e
        | .ok data =>
          match getHandle key_expr with
          | .error e => .error e
          | .ok () =>
            match send key_expr data with
            | .error e => .error e
            | .ok () => .ok true
    match attempt with
    | .ok b => .ok b
    | .error _ => .ok false

/-! ## Queryable (`zenoh/queryable.py`) -/

/-- Python whitespace for `str.strip()`. -/
def isPySpace (c : Char) : Bool :=
  c = ' ' ∨ c = '\t' ∨ c = '\n' ∨ c = '\r' ∨ c = '\x0B' ∨ c = '\x0C'

/-- Python `str.strip()`: drop leading and trailing whitespace. -/
def pyStrip (s : String) : String :=
  String.mk (((s.data.dropWhile isPySpace).reverse.dropWhile isPySpace).reverse)

/-- Python `str.split(sep)` for a one-character separator: every occurrence
of `sep` cuts, and the empty string splits to `[""]`. -/
def splitOnChar (sep : Char) : List Char → List (List Char)
  | [] => [[]]
  | c :: rest =>
    let r := splitOnChar sep rest
    if c = sep then [] :: r
    else
      match r with
      | [] => [[c]]
      | h :: t => (c :: h) :: t

/-- Parse the query payload: `<type>` optionally followed by `?k=v&k=v`,
mirroring `_handle_query`'s `split("?")` / `split("?", 1)` / `split("&")` /
`split("=", 1)` logic; `params` is a dict, so a repeated key keeps its last
value. -/
def parseQuery (payload_str : String) : String × List (String × String) :=
  let parts := splitOnChar '?' payload_str.data
  let query_type := pyStrip (String.mk (parts.headD []))
  let params :=
    if parts.length ≥ 2 then
      let param_str := List.intercalate ['?'] parts.tail
      (splitOnChar '&' param_str).foldl (fun acc part =>
        if part.contains '=' then
          let kv := splitOnChar '=' part
          setA acc (pyStrip (String.mk (kv.headD [])))
            (pyStrip (String.mk (List.intercalate ['='] kv.tail)))
        else acc) []
    else []
  (query_type, params)

/-- Decimal digits to a number (`int` parsing, digits already validated). -/
def digitsToNat (l : List Char) : Nat :=
  l.foldl (fun acc c => acc * 10 + (c.toNat - 48)) 0

/-- Python `int(s)`: strips whitespace, accepts an optional sign followed by
decimal digits; `none` models the `ValueError` raised on a malformed
literal. -/
def pyInt (s : String) : Option Int :=
  match (pyStrip s).data with
  | '-' :: rest =>
      if rest ≠ [] ∧ rest.all Char.isDigit then some (-(digitsToNat rest : Int))
      else none
  | '+' :: rest =>
      if rest ≠ [] ∧ rest.all Char.isDigit then some (digitsToNat rest)
      else none
  | l =>
      if l ≠ [] ∧ l.all Char.isDigit then some (digitsToNat l)
      else none

/-- The `hours` computation of the `history` branch:
`min(int(params.get("hours", "1")), 24)`; a malformed literal raises
`ValueError` (caught further out, producing an error reply). -/
def historyHours (params : List (String × String)) : Except PyErr Int :=
  match pyInt ((lookupA params "hours").getD "1") with
  | none => .error (.valueError "invalid literal for int()")
  | some n => .ok (min n 24)

/-- A JSON value appearing in a query reply: either a list of result rows or
an error string.  `R` abstracts one backend result row. -/
inductive RVal (R : Type) where
  | rows (rs : List R)
  | str (s : String)
  deriving Repr, DecidableEq

/-- A reply payload is the JSON object handed to `_reply` (before
`json.dumps`). -/
abbrev ReplyData (R : Type) := List (String × RVal R)

/-- The four SQL templates of `_QUERY_SQL` after `.format(table=...)`
(and `.format(hours=...)` for `history`). -/
def sqlSummary (table : String) : String :=
  "SELECT geo_country, geo_subdivision, reading_type, " ++
  "avg(value) AS avg_value, count() AS reading_count " ++
  "FROM " ++ table ++ " WHERE timestamp > now() - INTERVAL 1 HOUR " ++
  "GROUP BY geo_country, geo_subdivision, reading_type"

def sqlLatest (table : String) : String :=
  "SELECT * FROM " ++ table ++ " WHERE timestamp > now() - INTERVAL 1 HOUR " ++
  "ORDER BY timestamp DESC LIMIT 1 BY device_id, reading_type"

def sqlHistory (table : String) (hours : Int) : String :=
  "SELECT * FROM " ++ table ++ " WHERE timestamp > now() - INTERVAL " ++
  toString hours ++ " HOUR ORDER BY timestamp DESC"

def sqlDevices (table : String) : String :=
  "SELECT device_id, max(timestamp) AS last_seen, count() AS reading_count " ++
  "FROM " ++ table ++ " WHERE timestamp > now() - INTERVAL 24 HOUR " ++
  "GROUP BY device_id"

/-- `ZenohQueryable._handle_query`, returning the list of `_reply` calls it
makes.  `runQuery` models the optional ClickHouse client
(`self._ch_client.query`, `none` when no backend is connected); a raised
backend error is an `Except.error` and is converted by the handler's
`try/except` into a `{"error": str(e)}` reply.  `errText` renders an
exception as Python's `str(e)` would. -/
def handle_query {R : Type}
    (runQuery : Option (String → Except PyErr (List R)))
    (database table_name : String) (errText : PyErr → String)
    (payload_str : String) : List (ReplyData R) :=
  let qp := parseQuery payload_str
  let query_type := qp.1
  let params := qp.2
  match runQuery with
  | none => [[("results", .rows []), ("error", .str "no clickhouse connection")]]
  | some rq =>
    let table := database ++ "." ++ table_name
    let attempt : Except PyErr (ReplyData R) :=
      if query_type = "summary" then
        (rq (sqlSummary table)).map (fun rows => [("results", .rows rows)])
      else if query_type = "latest" then
        (rq (sqlLatest table)).map (fun rows => [("results", .rows rows)])
      else if query_type = "history" then do
        let hours ← historyHours params
        let rows ← rq (sqlHistory table hours)
        pure [("results", .rows rows)]
      else if query_type = "devices" then
        (rq (sqlDevices table)).map (fun rows => [("results", .rows rows)])
      else
        .ok [("error", .str ("unknown query type: " ++ query_type))]
    match attempt with
    | .ok result => [result]
    | .error e => [[("error", .str (errText e))]]

/-! ## Key manager (`signing/keys.py`) -/

/-- A filesystem as a path → content map (contents are bytes). -/
abbrev FS := List (String × List Nat)

/-- Key-manager state after a successful `load_or_generate`: the private key
(abstracted to its byte serialization) and the key version. -/
structure KmState where
  private_key : List Nat
  key_version : Nat
  deriving Repr, DecidableEq

/-- `IngesterKeyManager.load_or_generate` with its collaborators as
parameters: `parsePem` models `load_pem_private_key` (raises on corrupt or
undecodable key material), `parseSidecar` models `json.load` plus
`sidecar.get("key_version", 1)` on the sidecar file, `freshKey` the
keypair generated by `Ed25519PrivateKey.generate()` (serialized), and
`sidecarBytes` the JSON sidecar written for a fresh key.  Returns the
outcome together with the filesystem after the call: the load path never
writes, the generate path atomically writes the PEM and the sidecar. -/
def load_or_generate (parsePem : List Nat → Except PyErr (List Nat))
    (parseSidecar : List Nat → Except PyErr Nat)
    (freshKey : List Nat) (sidecarBytes : List Nat)
    (pem_path sidecar_path : String) (fs : FS) :
    Except PyErr KmState × FS :=
  match lookupA fs pem_path with
  | some pemBytes =>
      -- `_load`: parse the PEM, then the sidecar if present; no writes.
      (match parsePem pemBytes with
       | .error e => (.error e, fs)
       | .ok sk =>
         match lookupA fs sidecar_path with
         | none => (.ok ⟨sk, 1⟩, fs)
         | some scBytes =>
           match parseSidecar scBytes with
           | .error e => (.error e, fs)
           | .ok v => (.ok ⟨sk, v⟩, fs))
  | none =>
      -- `_generate`: fresh keypair, version 1, atomic writes of PEM + sidecar.
      let fs1 := setA fs pem_path freshKey
      let fs2 := setA fs1 sidecar_path sidecarBytes
      (.ok ⟨freshKey, 1⟩, fs2)

/-! ## Association-list lemmas -/

theorem lookupA_setA_self {α : Type} (m : List (String × α)) (k : String) (v : α) :
    lookupA (setA m k v) k = some v := by
  induction m with
  | nil => simp [setA, lookupA]
  | cons hd tl ih =>
    obtain ⟨k', v'⟩ := hd
    by_cases h : k' = k
    · simp [setA, lookupA, h]
    · simp [setA, lookupA, h, ih]

theorem lookupA_setA_ne {α : Type} (m : List (String × α)) (k k' : String) (v : α)
    (h : k ≠ k') : lookupA (setA m k v) k' = lookupA m k' := by
  induction m with
  | nil => simp [setA, lookupA, h]
  | cons hd tl ih =>
    obtain ⟨k₀, v₀⟩ := hd
    by_cases h0 : k₀ = k
    · subst h0
      simp [setA, lookupA, h]
    · by_cases h1 : k₀ = k'
      · simp [setA, lookupA, h0, h1, Ne.symm h]
      · simp [setA, lookupA, h0, h1, ih]

theorem mem_setA_self {α : Type} (m : List (String × α)) (k : String) (v : α) :
    (k, v) ∈ setA m k v := by
  induction m with
  | nil => simp [setA]
  | cons hd tl ih =>
    obtain ⟨k', v'⟩ := hd
    by_cases h : k' = k
    · subst h
      simp [setA]
    · simp only [setA, if_neg h]
      exact List.mem_cons_of_mem _ ih

theorem mem_setA_of_nodup {α : Type} {m : List (String × α)} {k : String} {v : α}
    {x : String × α} (hnd : (m.map Prod.fst).Nodup) (hx : x ∈ setA m k v) :
    x = (k, v) ∨ (x ∈ m ∧ x.1 ≠ k) := by
  induction m with
  | nil =>
    simp [setA] at hx
    exact Or.inl hx
  | cons hd tl ih =>
    obtain ⟨k', v'⟩ := hd
    simp only [List.map_cons, List.nodup_cons, List.mem_map] at hnd
    rw [setA] at hx
    by_cases h : k' = k
    · rw [if_pos h] at hx
      rcases List.mem_cons.mp hx with hx1 | hx1
      · subst h
        exact Or.inl hx1
      · right
        refine ⟨List.mem_cons_of_mem _ hx1, ?_⟩
        intro hk
        exact hnd.1 ⟨x, hx1, by rw [hk, h]⟩
    · rw [if_neg h] at hx
      rcases List.mem_cons.mp hx with hx1 | hx1
      · subst hx1
        exact Or.inr ⟨List.mem_cons_self _ _, h⟩
      · rcases ih hnd.2 hx1 with h1 | h1
        · exact Or.inl h1
        · exact Or.inr ⟨List.mem_cons_of_mem _ h1.1, h1.2⟩

theorem lookupA_eq_none_forall {α : Type} {m : List (String × α)} {k : String}
    (h : lookupA m k = none) : ∀ p ∈ m, p.1 ≠ k := by
  induction m with
  | nil => simp
  | cons hd tl ih =>
    obtain ⟨k', v'⟩ := hd
    simp only [lookupA] at h
    by_cases h0 : k' = k
    · simp [h0] at h
    · intro p hp
      rcases List.mem_cons.mp hp with hp | hp
      · subst hp
        exact h0
      · exact ih (by simpa [h0] using h) p hp

/-! ## Lowercasing lemmas -/

theorem toNat_ofNat_small (n : Nat) (h : n < 55296) : (Char.ofNat n).toNat = n := by
  have hv : n.isValidChar := Or.inl h
  simp only [Char.ofNat, dif_pos hv, Char.ofNatAux, Char.toNat]
  simp [UInt32.toNat, UInt32.ofNat', BitVec.toNat_ofNat]

theorem asciiLower_idem (c : Char) : asciiLower (asciiLower c) = asciiLower c := by
  unfold asciiLower
  by_cases h : 65 ≤ c.toNat ∧ c.toNat ≤ 90
  · simp only [if_pos h]
    have ht : (Char.ofNat (c.toNat + 32)).toNat = c.toNat + 32 :=
      toNat_ofNat_small _ (by omega)
    rw [if_neg (by rw [ht]; omega)]
  · simp only [if_neg h, if_neg h]

theorem mapLower_idem (l : List Char) :
    (l.map asciiLower).map asciiLower = l.map asciiLower := by
  induction l with
  | nil => rfl
  | cons c t ih => simp [asciiLower_idem, ih]

theorem pyLower_idem (s : String) : pyLower (pyLower s) = pyLower s := by
  cases s with
  | mk data =>
    show String.mk ((data.map asciiLower).map asciiLower) = String.mk (data.map asciiLower)
    rw [mapLower_idem]

theorem pyLower_ne_empty {s : String} (h : s ≠ "") : pyLower s ≠ "" := by
  cases s with
  | mk data =>
    cases data with
    | nil => exact absurd rfl h
    | cons c t =>
      intro hc
      have hdata : (String.mk (asciiLower c :: t.map asciiLower)).data =
          ("" : String).data := by rw [← hc]; rfl
      simp at hdata

theorem pyOr_unknown_ne_empty (x : Option String) : pyOr x "unknown" ≠ "" := by
  cases x with
  | none => simp [pyOr]
  | some s => by_cases h : s = "" <;> simp [pyOr, h]

theorem pyOr_some_ne {s : String} (d : String) (h : s ≠ "") : pyOr (some s) d = s := by
  simp [pyOr, h]

/-! ## Claim theorems -/

/-- C2: after `add_trusted(id, k, v)`, `is_trusted(id)` is true and
`get_public_key(id, v)` returns that key; after `revoke(id, v, reason)`,
`get_public_key(id, v)` returns none (lookup is version-specific), and
`is_trusted(id)` is false when no other active version remains; revoking a
nonexistent `(id, v)` entry is a no-op.  The `Nodup` hypothesis states that
the version map is a well-formed dict (distinct keys); `h32` states that `k`
is Ed25519-sized, as every key handled by the store is. -/
theorem trustStore_add_revoke_spec
    (keys : TrustKeys) (ingester_id : String) (k : List Nat) (v : Nat)
    (meta : List (String × String)) (now now2 reason : String)
    (h32 : k.length = 32) :
    is_trusted (add_trusted keys ingester_id k v meta now) ingester_id = true ∧
    get_public_key (add_trusted keys ingester_id k v meta now) ingester_id v =
      .ok (some k) ∧
    get_public_key (revoke keys ingester_id v reason now2) ingester_id v = .ok none ∧
    ((((lookupA keys ingester_id).getD []).map Prod.fst).Nodup →
      (∀ p ∈ (lookupA keys ingester_id).getD [], p.1 ≠ toString v →
        p.2.status ≠ "active") →
      is_trusted (revoke keys ingester_id v reason now2) ingester_id = false) ∧
    (lookupA ((lookupA keys ingester_id).getD []) (toString v) = none →
      revoke keys ingester_id v reason now2 = keys) := by
  refine ⟨?_, ?_, ?_, ?_, ?_⟩
  · unfold is_trusted add_trusted
    rw [lookupA_setA_self]
    simp only [Option.getD_some]
    rw [List.any_eq_true]
    refine ⟨(toString v,
      { public_key := k, status := "active", added := now, metadata := meta }),
      mem_setA_self _ _ _, by simp⟩
  · unfold get_public_key add_trusted
    rw [lookupA_setA_self]
    simp only [Option.getD_some]
    rw [lookupA_setA_self]
    simp [from_public_bytes, h32, Except.map]
  · cases hkid : lookupA keys ingester_id with
    | none =>
      simp [revoke, get_public_key, hkid, lookupA]
    | some versions =>
      cases hv : lookupA versions (toString v) with
      | none =>
        simp [revoke, get_public_key, hkid, hv]
      | some entry =>
        simp only [revoke, hkid, hv]
        unfold get_public_key
        rw [lookupA_setA_self]
        simp only [Option.getD_some]
        rw [lookupA_setA_self]
        simp
  · intro hnd hinact
    cases hkid : lookupA keys ingester_id with
    | none =>
      simp [revoke, is_trusted, hkid]
    | some versions =>
      rw [hkid] at hnd hinact
      simp only [Option.getD_some] at hnd hinact
      cases hv : lookupA versions (toString v) with
      | none =>
        simp only [revoke, hkid, hv]
        unfold is_trusted
        rw [hkid]
        simp only [Option.getD_some]
        rw [List.any_eq_false]
        intro p hp
        have := hinact p hp (lookupA_eq_none_forall hv p hp)
        simpa using this
      | some entry =>
        simp only [revoke, hkid, hv]
        unfold is_trusted
        rw [lookupA_setA_self]
        simp only [Option.getD_some]
        rw [List.any_eq_false]
        intro p hp
        rcases mem_setA_of_nodup hnd hp with h1 | h1
        · subst h1
          simp
        · have := hinact p h1.1 h1.2
          simpa using this
  · intro hnone
    cases hkid : lookupA keys ingester_id with
    | none => simp [revoke, hkid]
    | some versions =>
      rw [hkid] at hnone
      simp only [Option.getD_some] at hnone
      simp [revoke, hkid, hnone]

/-- Witness for C2 at a concrete store: add then query, revoke then query,
and a no-op revoke, all on explicit inputs. -/
theorem trustStore_add_revoke_spec_witness :
    is_trusted (add_trusted [] "wsi_a" (List.replicate 32 0) 1 [] "t0") "wsi_a" = true ∧
    get_public_key (add_trusted [] "wsi_a" (List.replicate 32 0) 1 [] "t0") "wsi_a" 1 =
      .ok (some (List.replicate 32 0)) ∧
    get_public_key (revoke [] "wsi_a" 1 "compromised" "t1") "wsi_a" 1 = .ok none ∧
    is_trusted (revoke [] "wsi_a" 1 "compromised" "t1") "wsi_a" = false ∧
    revoke [] "wsi_a" 1 "compromised" "t1" = [] := by
  have h := trustStore_add_revoke_spec [] "wsi_a" (List.replicate 32 0) 1 [] "t0" "t1"
    "compromised" (by decide)
  exact ⟨h.1, h.2.1, h.2.2.1,
    h.2.2.2.1 (by decide) (by intro p hp; simp [lookupA] at hp),
    h.2.2.2.2 (by decide)⟩

/-- C3: for every envelope and public key, `ReadingSigner.verify` returns a
boolean rather than raising: it is `true` exactly when the Ed25519 primitive
accepts the signature over the exact payload bytes under that key, and
`false` on any mismatch (the library's `InvalidSignature` is caught).  The
statement holds for every behaviour `cv` of the cryptographic primitive,
hence for arbitrary malformed, empty, or wrong-length signature and payload
fields. -/
theorem verify_total_iff_valid (cv : CryptoVerify) (sr : SignedReading)
    (pk : List Nat) :
    ReadingSigner.verify cv sr pk = .ok (cv pk sr.signature sr.payload) := by
  unfold ReadingSigner.verify pkVerify
  by_cases h : cv pk sr.signature sr.payload <;> simp [h]

/-- C1: with a trust store configured, `_on_sample` on an envelope with
non-empty signature and identity passes through three gates: untrusted
identity → `rejected` and no callback; no active key for the declared
version → `rejected` and no callback; bad signature → `rejected` and no
callback; all gates passed → `verified` and the callback receives the
decoded payload together with the envelope. -/
theorem onSample_trust_gates {J : Type}
    (deserialize : List Nat → Option SignedReading) (jsonParse : List Nat → Option J)
    (cv : CryptoVerify) (keys : TrustKeys) (st : SubStats) (data : List Nat)
    (sr : SignedReading) (hdes : deserialize data = some sr)
    (hsig : sr.signature ≠ []) (hid : sr.ingester_id ≠ "") :
    (is_trusted keys sr.ingester_id = false →
      onSample deserialize jsonParse cv (some keys) st data =
        ({ st with received := st.received + 1, rejected := st.rejected + 1 }, [])) ∧
    (is_trusted keys sr.ingester_id = true →
      get_public_key keys sr.ingester_id sr.key_version = .ok none →
      onSample deserialize jsonParse cv (some keys) st data =
        ({ st with received := st.received + 1, rejected := st.rejected + 1 }, [])) ∧
    (∀ pk, is_trusted keys sr.ingester_id = true →
      get_public_key keys sr.ingester_id sr.key_version = .ok (some pk) →
      cv pk sr.signature sr.payload = false →
      onSample deserialize jsonParse cv (some keys) st data =
        ({ st with received := st.received + 1, rejected := st.rejected + 1 }, [])) ∧
    (∀ pk r, is_trusted keys sr.ingester_id = true →
      get_public_key keys sr.ingester_id sr.key_version = .ok (some pk) →
      cv pk sr.signature sr.payload = true →
      jsonParse sr.payload = some r →
      onSample deserialize jsonParse cv (some keys) st data =
        ({ st with received := st.received + 1, verified := st.verified + 1 },
          [(r, some sr)])) := by
  refine ⟨?_, ?_, ?_, ?_⟩
  · intro htr
    simp [onSample, hdes, hsig, hid, htr]
  · intro htr hpk
    simp [onSample, hdes, hsig, hid, htr, hpk]
  · intro pk htr hpk hcv
    simp [onSample, hdes, hsig, hid, htr, hpk, hcv]
  · intro pk r htr hpk hcv hjson
    simp [onSample, hdes, hsig, hid, htr, hpk, hcv, hjson]

/-- Witness for C1: the all-gates-pass branch at an explicit store, envelope
and parser. -/
theorem onSample_trust_gates_witness :
    onSample (J := Nat) (fun _ => some ⟨[1, 2], List.replicate 64 0, "wsi_a", 1⟩)
      (fun _ => some 7) (fun _ _ _ => true)
      (some [("wsi_a", [("1",
        { public_key := List.replicate 32 0, status := "active",
          added := "t0", metadata := [] })])])
      SubStats.zero [0] =
      ({ SubStats.zero with received := 1, verified := 1 },
        [(7, some ⟨[1, 2], List.replicate 64 0, "wsi_a", 1⟩)]) := by
  have h := onSample_trust_gates (J := Nat)
    (fun _ => some ⟨[1, 2], List.replicate 64 0, "wsi_a", 1⟩)
    (fun _ => some 7) (fun _ _ _ => true)
    [("wsi_a", [("1",
      { public_key := List.replicate 32 0, status := "active",
        added := "t0", metadata := [] })])]
    SubStats.zero [0] ⟨[1, 2], List.replicate 64 0, "wsi_a", 1⟩
    rfl (by decide) (by decide)
  exact h.2.2.2 (List.replicate 32 0) 7 (by decide) (by decide) rfl rfl

/-- C4: bytes that fail envelope deserialization are treated as raw JSON:
a successful parse counts `unsigned` and delivers `(payload, none)`; a
failing parse is dropped silently, touching no counter beyond `received`
and invoking no callback.  Holds with or without a trust store. -/
theorem onSample_unsigned_fallback {J : Type}
    (deserialize : List Nat → Option SignedReading) (jsonParse : List Nat → Option J)
    (cv : CryptoVerify) (store : Option TrustKeys) (st : SubStats) (data : List Nat)
    (hdes : deserialize data = none) :
    (∀ r, jsonParse data = some r →
      onSample deserialize jsonParse cv store st data =
        ({ st with received := st.received + 1, unsigned := st.unsigned + 1 },
          [(r, none)])) ∧
    (jsonParse data = none →
      onSample deserialize jsonParse cv store st data =
        ({ st with received := st.received + 1 }, [])) := by
  constructor
  · intro r hjson
    simp [onSample, fallbackJson, hdes, hjson]
  · intro hjson
    simp [onSample, fallbackJson, hdes, hjson]

/-- Witness for C4: a non-envelope JSON byte stream yields `unsigned == 1`
and a `(payload, none)` delivery. -/
theorem onSample_unsigned_fallback_witness :
    onSample (J := Nat) (fun _ => none) (fun _ => some 3) (fun _ _ _ => true)
      none SubStats.zero [0] =
      ({ SubStats.zero with received := 1, unsigned := 1 }, [(3, none)]) :=
  (onSample_unsigned_fallback (J := Nat) (fun _ => none) (fun _ => some 3)
    (fun _ _ _ => true) none SubStats.zero [0] rfl).1 3 rfl

/-- C5: an envelope that decodes but has an empty signature or an empty
identity is never verified and never delivered with an envelope — in both
trust-store modes it falls through to the unsigned-JSON fallback: delivered
as `(payload, none)` with `unsigned` counted when the raw bytes parse as
JSON, silently dropped otherwise. -/
theorem onSample_empty_sig_or_id {J : Type}
    (deserialize : List Nat → Option SignedReading) (jsonParse : List Nat → Option J)
    (cv : CryptoVerify) (store : Option TrustKeys) (st : SubStats) (data : List Nat)
    (sr : SignedReading) (hdes : deserialize data = some sr)
    (hempty : sr.signature = [] ∨ sr.ingester_id = "") :
    (∀ r, jsonParse data = some r →
      onSample deserialize jsonParse cv store st data =
        ({ st with received := st.received + 1, unsigned := st.unsigned + 1 },
          [(r, none)])) ∧
    (jsonParse data = none →
      onSample deserialize jsonParse cv store st data =
        ({ st with received := st.received + 1 }, [])) ∧
    (onSample deserialize jsonParse cv store st data).1.verified = st.verified ∧
    (∀ p ∈ (onSample deserialize jsonParse cv store st data).2, p.2 = none) := by
  have hcond : ¬ (sr.signature ≠ [] ∧ sr.ingester_id ≠ "") := by
    rcases hempty with h | h <;> simp [h]
  refine ⟨?_, ?_, ?_, ?_⟩
  · intro r hjson
    simp [onSample, fallbackJson, hdes, hcond, hjson]
  · intro hjson
    simp [onSample, fallbackJson, hdes, hcond, hjson]
  · cases hjson : jsonParse data <;>
      simp [onSample, fallbackJson, hdes, hcond, hjson]
  · intro p hp
    cases hjson : jsonParse data with
    | none =>
      simp [onSample, fallbackJson, hdes, hcond, hjson] at hp
    | some r =>
      simp [onSample, fallbackJson, hdes, hcond, hjson] at hp
      simp [hp]

/-- Witness for C5: an envelope with an empty signature falls through to the
unsigned-JSON fallback and is delivered as `(payload, none)`. -/
theorem onSample_empty_sig_or_id_witness :
    onSample (J := Nat) (fun _ => some ⟨[1], [], "wsi_a", 1⟩) (fun _ => some 5)
      (fun _ _ _ => true) none SubStats.zero [0] =
      ({ SubStats.zero with received := 1, unsigned := 1 }, [(5, none)]) :=
  (onSample_empty_sig_or_id (J := Nat) (fun _ => some ⟨[1], [], "wsi_a", 1⟩)
    (fun _ => some 5) (fun _ _ _ => true) none SubStats.zero [0]
    ⟨[1], [], "wsi_a", 1⟩ rfl (Or.inl rfl)).1 5 rfl

/-- C6 counterexample: the `history` hours parameter is *not* clamped into
the inclusive range `[1, 24]` — the query `history?hours=0` parses to
`hours = "0"` and the computed value `min(int("0"), 24)` is `0`, below the
claimed lower bound. -/
theorem historyHours_not_clamped_below :
    parseQuery "history?hours=0" = ("history", [("hours", "0")]) ∧
    historyHours [("hours", "0")] = .ok 0 ∧ ¬ (1 ≤ (0 : Int)) := by
  refine ⟨by decide, by decide, by decide⟩

/-- C6 (amended): the `history` hours parameter is only capped from above at
24 (`min(int(hours), 24)`); a missing parameter defaults to 1, `hours=999`
is silently treated identically to `hours=24` (not rejected), but values
below 1, such as `hours=0`, pass through unclamped. -/
theorem historyHours_capped (params : List (String × String)) (n : Int)
    (h : historyHours params = .ok n) :
    n ≤ 24 ∧
    historyHours [] = .ok 1 ∧
    historyHours [("hours", "999")] = .ok 24 ∧
    historyHours [("hours", "999")] = historyHours [("hours", "24")] := by
  refine ⟨?_, by decide, by decide, by decide⟩
  unfold historyHours at h
  cases hp : pyInt ((lookupA params "hours").getD "1") with
  | none => rw [hp] at h; exact absurd h (by simp)
  | some m =>
    rw [hp] at h
    simp only [Except.ok.injEq] at h
    omega

/-- Witness for C6 (amended) at `hours=999`. -/
theorem historyHours_capped_witness :
    (24 : Int) ≤ 24 ∧
    historyHours [] = .ok 1 ∧
    historyHours [("hours", "999")] = .ok 24 ∧
    historyHours [("hours", "999")] = historyHours [("hours", "24")] :=
  historyHours_capped [("hours", "999")] 24 (by decide)

/-- C7: `_handle_query` makes exactly one `_reply` call on every input: an
unrecognized query type (with a backend attached) replies with an `error`
field naming the unknown type, and a missing backend replies with empty
results plus an explanatory error, never an unhandled failure. -/
theorem handle_query_single_reply {R : Type}
    (runQuery : Option (String → Except PyErr (List R)))
    (database table_name : String) (errText : PyErr → String)
    (payload_str : String) :
    (handle_query runQuery database table_name errText payload_str).length = 1 ∧
    (runQuery = none →
      handle_query runQuery database table_name errText payload_str =
        [[("results", .rows []), ("error", .str "no clickhouse connection")]]) ∧
    (∀ rq, runQuery = some rq →
      (parseQuery payload_str).1 ∉
        (["summary", "latest", "history", "devices"] : List String) →
      handle_query runQuery database table_name errText payload_str =
        [[("error", .str ("unknown query type: " ++ (parseQuery payload_str).1))]]) := by
  refine ⟨?_, ?_, ?_⟩
  · cases runQuery with
    | none => simp [handle_query]
    | some rq =>
      simp only [handle_query]
      split <;> simp
  · intro h
    subst h
    simp [handle_query]
  · intro rq h hq
    subst h
    simp only [List.mem_cons, List.not_mem_nil, or_false, not_or] at hq
    obtain ⟨h1, h2, h3, h4⟩ := hq
    simp [handle_query, h1, h2, h3, h4]

/-- Witness for C7: the unknown-type reply at a concrete query string and
backend. -/
theorem handle_query_single_reply_witness :
    (handle_query (R := Nat) (some (fun _ => .ok [])) "db" "tbl"
        (fun _ => "e") "bogus?x=1").length = 1 ∧
    handle_query (R := Nat) (some (fun _ => .ok [])) "db" "tbl"
        (fun _ => "e") "bogus?x=1" =
      [[("error", .str ("unknown query type: " ++ (parseQuery "bogus?x=1").1))]] := by
  have h := handle_query_single_reply (R := Nat) (some (fun _ => .ok []))
    "db" "tbl" (fun _ => "e") "bogus?x=1"
  exact ⟨h.1, h.2.2 (fun _ => .ok []) rfl (by decide)⟩

/-- C8: the published key expression is
`{prefix}/{country}/{subdivision}/{device_id}` with country and subdivision
lowercased and each missing-or-empty attribute replaced by the literal
`unknown`; in particular the two concrete readings of the spec produce
`wesense/v2/live/nz/auk/sensor-001` and
`wesense/v2/live/unknown/unknown/unknown`. -/
theorem publish_key_expr_spec ( key_prefix : String) (reading : Reading) :
    readingKeyExpr key_prefix reading =
      key_prefix ++ "/" ++ pyLower (pyOr (lookupA reading "geo_country") "unknown") ++
      "/" ++ pyLower (pyOr (lookupA reading "geo_subdivision") "unknown") ++
      "/" ++ pyOr (lookupA reading "device_id") "unknown" ∧
    readingKeyExpr "wesense/v2/live"
      [("device_id", "sensor-001"), ("geo_country", "nz"), ("geo_subdivision", "auk")] =
      "wesense/v2/live/nz/auk/sensor-001" ∧
    readingKeyExpr "wesense/v2/live" [] = "wesense/v2/live/unknown/unknown/unknown" := by
  refine ⟨?_, by decide, by decide⟩
  simp only [readingKeyExpr, build_key_expr]
  rw [pyOr_some_ne _ (pyLower_ne_empty (pyOr_unknown_ne_empty _))]
  rw [pyOr_some_ne _ (pyLower_ne_empty (pyOr_unknown_ne_empty _))]
  rw [pyOr_some_ne _ (pyOr_unknown_ne_empty _)]
  rw [pyLower_idem, pyLower_idem]

/-- C9: `publish_reading` never raises to the caller: it always returns a
boolean, `false` when not connected, and `false` whenever serialization,
signing, handle creation, or the send attempt raises for any reason. -/
theorem publish_reading_no_raise
    (connected sessionOpen : Bool)
    (serialize : Reading → Except PyErr (List Nat))
    (signer : Option (List Nat → Except PyErr (List Nat)))
    (getHandle : String → Except PyErr Unit)
    (send : String → List Nat → Except PyErr Unit)
    ( key_prefix : String) (reading : Reading) :
    (∃ b, publish_reading connected sessionOpen serialize signer getHandle send
        key_prefix reading = .ok b) ∧
    (connected = false ∨ sessionOpen = false →
      publish_reading connected sessionOpen serialize signer getHandle send
        key_prefix reading = .ok false) ∧
    (∀ e, serialize reading = .error e →
      publish_reading connected sessionOpen serialize signer getHandle send
        key_prefix reading = .ok false) ∧
    (∀ sign bs e, signer = some sign → serialize reading = .ok bs →
      sign bs = .error e →
      publish_reading connected sessionOpen serialize signer getHandle send
        key_prefix reading = .ok false) ∧
    (∀ e, getHandle (readingKeyExpr key_prefix reading) = .error e →
      publish_reading connected sessionOpen serialize signer getHandle send
        key_prefix reading = .ok false) ∧
    ((∀ d, ∃ e, send (readingKeyExpr key_prefix reading) d = .error e) →
      publish_reading connected sessionOpen serialize signer getHandle send
        key_prefix reading = .ok false) := by
  by_cases hc : connected ∧ sessionOpen
  · refine ⟨?_, ?_, ?_, ?_, ?_, ?_⟩
    · simp only [publish_reading, if_neg (not_not_intro hc)]
      split <;> exact ⟨_, rfl⟩
    · rintro (h | h) <;> simp [h] at hc
    · intro e hser
      simp [publish_reading, hc, hser]
    · intro sign bs e hsig hser hfail
      simp [publish_reading, hc, hser, hsig, hfail]
    · intro e hgh
      simp only [publish_reading, if_neg (not_not_intro hc)]
      cases hser : serialize reading with
      | error e' => simp
      | ok bs =>
        cases hdata : (match signer with
                       | some sign => sign bs
                       | none => .ok bs : Except PyErr (List Nat)) with
        | error e' => simp [hdata]
        | ok _d => simp [hdata, hgh]
    · intro hsend
      simp only [publish_reading, if_neg (not_not_intro hc)]
      cases hser : serialize reading with
      | error e' => simp
      | ok bs =>
        cases hdata : (match signer with
                       | some sign => sign bs
                       | none => .ok bs : Except PyErr (List Nat)) with
        | error e' => simp [hdata]
        | ok d =>
          cases hgh : getHandle (readingKeyExpr key_prefix reading) with
          | error e' => simp [hdata, hgh]
          | ok u =>
            obtain ⟨e, he⟩ := hsend d
            cases u
            simp [hdata, hgh, he]
  · have hfalse : publish_reading connected sessionOpen serialize signer getHandle
        send key_prefix reading = .ok false := by
      simp [publish_reading, hc]
    exact ⟨⟨false, hfalse⟩, fun _ => hfalse, fun _ _ => hfalse,
      fun _ _ _ _ _ _ => hfalse, fun _ _ => hfalse, fun _ => hfalse⟩

/-- Witness for C9: a failing send attempt at concrete inputs yields
`.ok false`. -/
theorem publish_reading_no_raise_witness :
    publish_reading true true (fun _ => .ok [1]) none (fun _ => .ok ())
      (fun _ _ => .error (.other "send failed")) "wesense/v2/live" [] = .ok false :=
  (publish_reading_no_raise true true (fun _ => .ok [1]) none (fun _ => .ok ())
    (fun _ _ => .error (.other "send failed")) "wesense/v2/live" []).2.2.2.2.2
    (fun _d => ⟨.other "send failed", rfl⟩)

/-- C10: when the persisted key file exists but its contents do not parse as
key material, `load_or_generate` surfaces the error to the caller and leaves
the filesystem untouched — no replacement keypair is generated or
persisted. -/
theorem load_or_generate_corrupt_fatal
    (parsePem : List Nat → Except PyErr (List Nat))
    (parseSidecar : List Nat → Except PyErr Nat)
    (freshKey sidecarBytes : List Nat) (pem_path sidecar_path : String)
    (fs : FS) (pemBytes : List Nat) (e : PyErr)
    (hexists : lookupA fs pem_path = some pemBytes)
    (hcorrupt : parsePem pemBytes = .error e) :
    load_or_generate parsePem parseSidecar freshKey sidecarBytes pem_path
      sidecar_path fs = (.error e, fs) := by
  simp [load_or_generate, hexists, hcorrupt]

/-- Witness for C10 at a concrete filesystem and corrupt key file. -/
theorem load_or_generate_corrupt_fatal_witness :
    load_or_generate (fun _ => .error (.keyLoadError "corrupt"))
      (fun _ => .ok 1) [9] [8] "data/keys/ingester_key.pem"
      "data/keys/ingester_key.json" [("data/keys/ingester_key.pem", [0])] =
      (.error (.keyLoadError "corrupt"), [("data/keys/ingester_key.pem", [0])]) :=
  load_or_generate_corrupt_fatal (fun _ => .error (.keyLoadError "corrupt"))
    (fun _ => .ok 1) [9] [8] "data/keys/ingester_key.pem"
    "data/keys/ingester_key.json" [("data/keys/ingester_key.pem", [0])] [0]
    (.keyLoadError "corrupt") (by decide) rfl

end WeSense
